import Mathlib

/-!
Verification of the book-browsing widget in
`DAVLON476_PTO2401_A_David_Longmore_DJS03/scripts.js`.

The script maintains two module-level mutable variables, `page` and
the match list, renders paginated book previews into a list container, and
wires up search, show-more, book-click and theme-settings handlers.
We embed the script shallowly: the dataset module (`data.js`, the
external Dataset Provider) is a parameter record, DOM writes become
fields of explicit state records, and each handler becomes a pure
state-transition function translated line by line from the source.
-/

namespace BookConnect

/-- A book record as supplied by the Dataset Provider (`data.js`):
id, title, author key, image URI, description, published date string,
and a list of genre keys. -/
structure Book where
  id : String
  title : String
  author : String
  image : String
  description : String
  published : String
  genres : List String
  deriving Repr, DecidableEq

/-- The filter criteria read from the search form in `handleSearch`
(`Object.fromEntries(formData)`): title text, genre key or `"any"`,
author key or `"any"`. -/
structure Filters where
  title : String
  genre : String
  author : String
  deriving Repr, DecidableEq

/-- Models JavaScript `String.prototype.toLowerCase()` (on the ASCII
range used by the dataset): lower-case every character. -/
def jsToLower (s : String) : String :=
  String.mk (s.data.map Char.toLower)

/-- Models JavaScript `String.prototype.trim()`: drop whitespace from
both ends of the string. -/
def jsTrim (s : String) : String :=
  String.mk (((s.data.dropWhile Char.isWhitespace).reverse.dropWhile
    Char.isWhitespace).reverse)

/-- Helper for `strIncludes`: does `pat` occur as a contiguous sublist
of the character list? Checks a prefix match at every suffix. -/
def listContains (pat : List Char) : List Char → Bool
  | [] => pat.isEmpty
  | c :: rest => pat.isPrefixOf (c :: rest) || listContains pat rest

/-- Models JavaScript `String.prototype.includes(pat)`: substring
containment. -/
def strIncludes (s pat : String) : Bool :=
  listContains pat.data s.data

/-- Specification-level statement of substring containment: `pat`'s
characters appear contiguously inside `s`. -/
def ContainsSpec (s pat : String) : Prop :=
  ∃ pre post : List Char, s.data = pre ++ pat.data ++ post

/-- Genre predicate of `handleSearch` (scripts.js line 122):
`filters.genre === 'any' || book.genres.includes(filters.genre)`. -/
def genreMatch (f : Filters) (b : Book) : Bool :=
  f.genre == "any" || b.genres.contains f.genre

/-- Title predicate of `handleSearch` (scripts.js line 123):
`filters.title.trim() === '' ||
 book.title.toLowerCase().includes(filters.title.toLowerCase())`.
Note the emptiness test uses the trimmed title but the containment
test uses the untrimmed title. -/
def titleMatch (f : Filters) (b : Book) : Bool :=
  jsTrim f.title == "" || strIncludes (jsToLower b.title) (jsToLower f.title)

/-- Author predicate of `handleSearch` (scripts.js line 124):
`filters.author === 'any' || book.author === filters.author`. -/
def authorMatch (f : Filters) (b : Book) : Bool :=
  f.author == "any" || b.author == f.author

/-- The whole filter callback of `handleSearch` (scripts.js lines
121-126): `genreMatch && titleMatch && authorMatch`. -/
def bookMatches (f : Filters) (b : Book) : Bool :=
  genreMatch f b && titleMatch f b && authorMatch f b

/-- A detached DOM element as produced by `createElement` in
scripts.js: tag name, attribute list (in `setAttribute` order), and
`innerHTML` markup. -/
structure Element where
  tag : String
  attributes : List (String × String)
  innerHTML : String
  deriving Repr, DecidableEq

/-- `createElement(tag, attributes, innerHTML)` from scripts.js lines
10-17: build an element with the given attributes and content. -/
def createElement (tag : String) (attributes : List (String × String))
    (innerHTML : String) : Element :=
  { tag := tag, attributes := attributes, innerHTML := innerHTML }

/-- JavaScript property access `authors[author]` on the authors
mapping: the mapped name, or the string rendering of `undefined` when
the key is absent (that is what the template literal interpolates). -/
def lookupAuthor (authors : List (String × String)) (k : String) : String :=
  match authors.find? (fun p => p.1 == k) with
  | some p => p.2
  | none => "undefined"

/-- The template literal of `createBookPreviews` (scripts.js lines
35-41), with `${image}`, `${title}` and `${authors[author]}`
interpolated. -/
def previewHTML (authors : List (String × String)) (b : Book) : String :=
  "\n            <img class=\"preview__image\" src=\"" ++ b.image ++
  "\" />\n            <div class=\"preview__info\">\n                <h3 class=\"preview__title\">"
  ++ b.title ++
  "</h3>\n                <div class=\"preview__author\">" ++
  lookupAuthor authors b.author ++
  "</div>\n            </div>\n        "

/-- `createBookPreviews(books, authors)` from scripts.js lines 31-43:
one preview button element per record, in order. -/
def createBookPreviews (books : List Book)
    (authors : List (String × String)) : List Element :=
  books.map (fun b =>
    createElement "button"
      [("class", "preview"), ("data-preview", b.id)]
      (previewHTML authors b))

/-- `createOptions(data, defaultOptionText)` from scripts.js lines
47-53: the default `"any"` option followed by one option per mapping
entry (`Object.entries` iteration order). -/
def createOptions (data : List (String × String))
    (defaultOptionText : String) : List Element :=
  createElement "option" [("value", "any")] defaultOptionText ::
    data.map (fun p => createElement "option" [("value", p.1)] p.2)

/-- The Dataset Provider contract (`data.js` module imported on
scripts.js line 1): the books sequence, the authors and genres
mappings in their `Object.entries` iteration order, and the
`BOOKS_PER_PAGE` constant. -/
structure Dataset where
  books : List Book
  authors : List (String × String)
  genres : List (String × String)
  BOOKS_PER_PAGE : Nat
  deriving Repr

/-- JavaScript `Array.prototype.slice(start, stop)` for the
non-negative argument forms used in scripts.js. -/
def jsSlice (l : List α) (start stop : Nat) : List α :=
  (l.drop start).take (stop - start)

/-- The mutable script state together with the DOM surfaces the
handlers write: `currentMatches` models the script's match list and
`page` its page counter (scripts.js lines 3-4), plus the
children of `[data-list-items]`, the `disabled` flag and remaining
count shown on `[data-list-button]`, and whether `[data-list-message]`
has the `list__message_show` class. -/
structure EngineState where
  currentMatches : List Book
  page : Nat
  listItems : List Element
  listButtonDisabled : Bool
  listRemaining : Nat
  messageShown : Bool
  deriving Repr

/-- `handleSearch` (scripts.js lines 117-148) given the filters parsed
from the form: recompute `currentMatches`, reset `page` to 1, replace the
list contents with the first `BOOKS_PER_PAGE` matching books, update the
show-more button, and toggle the no-results message. -/
def handleSearch (d : Dataset) (f : Filters) (_s : EngineState) : EngineState :=
  let currentMatches := d.books.filter (bookMatches f)
  let newItems := createBookPreviews (jsSlice currentMatches 0 d.BOOKS_PER_PAGE) d.authors
  { currentMatches := currentMatches
  , page := 1
  , listItems := newItems
  , listButtonDisabled := decide (currentMatches.length ≤ d.BOOKS_PER_PAGE)
  , listRemaining := currentMatches.length - d.BOOKS_PER_PAGE
  , messageShown := decide (currentMatches.length < 1) }

/-- The slice `currentMatches.slice(start, end)` computed by `handleShowMore`
(scripts.js lines 153-155) with `start = page * BOOKS_PER_PAGE` and
`end = (page + 1) * BOOKS_PER_PAGE`. -/
def showMoreSlice (d : Dataset) (s : EngineState) : List Book :=
  jsSlice s.currentMatches (s.page * d.BOOKS_PER_PAGE) ((s.page + 1) * d.BOOKS_PER_PAGE)

/-- `handleShowMore` (scripts.js lines 152-165): append previews for
the next page-sized slice of `currentMatches`, increment `page`, and update
the show-more button's disabled flag and remaining count. -/
def handleShowMore (d : Dataset) (s : EngineState) : EngineState :=
  let e := (s.page + 1) * d.BOOKS_PER_PAGE
  let newItems := createBookPreviews (showMoreSlice d s) d.authors
  { s with
    listItems := s.listItems ++ newItems
  , page := s.page + 1
  , listButtonDisabled := decide (s.currentMatches.length ≤ e)
  , listRemaining := s.currentMatches.length - e }

/-- The possible values of the theme select / applied theme. -/
inductive Theme where
  | day
  | night
  deriving Repr, DecidableEq

/-- The theme-related DOM state: the `[data-settings-theme]` select
value, the two CSS custom properties on the document, and the
`[data-settings-overlay]` open flag. -/
structure ThemeState where
  settingsThemeValue : Theme
  colorDark : String
  colorLight : String
  settingsOverlayOpen : Bool
  deriving Repr, DecidableEq

/-- `applyTheme` (scripts.js lines 59-69): read the environment
dark-mode preference signal (`window.matchMedia('(prefers-color-scheme:
dark)')` result), derive the theme from it, write it into the select,
and set the two color custom properties. -/
def applyTheme (prefersDarkScheme : Bool) (u : ThemeState) : ThemeState :=
  let theme := if prefersDarkScheme then Theme.night else Theme.day
  let colorDark := if theme = Theme.night then "255, 255, 255" else "10, 10, 20"
  let colorLight := if theme = Theme.night then "10, 10, 20" else "255, 255, 255"
  { u with
    settingsThemeValue := theme
  , colorDark := colorDark
  , colorLight := colorLight }

/-- The `[data-settings-form]` submit handler (scripts.js lines
97-104): read the submitted theme choice, write it into the select,
call `applyTheme()`, and close the settings overlay. -/
def settingsFormSubmit (theme : Theme) (prefersDarkScheme : Bool)
    (u : ThemeState) : ThemeState :=
  let u1 := { u with settingsThemeValue := theme }
  let u2 := applyTheme prefersDarkScheme u1
  { u2 with settingsOverlayOpen := false }

/-- The detail-view DOM state written by `handleBookClick`
(scripts.js lines 174-181). -/
structure DetailView where
  openFlag : Bool
  blurSrc : String
  imageSrc : String
  titleText : String
  subtitleText : String
  descriptionText : String
  deriving Repr, DecidableEq

/-- The lookup `books.find(book => book.id === active)` of
`handleBookClick` (scripts.js line 172); `active` may be absent
(`undefined`) when no ancestor of the click target carries a
`data-preview` attribute. -/
def lookupById (books : List Book) (active : Option String) : Option Book :=
  books.find? (fun b => some b.id == active)

/-- `handleBookClick` (scripts.js lines 169-182) after the clicked
element's `data-preview` token has been extracted from the event path:
if a book with that id exists, open and fill the detail view;
otherwise leave it untouched.  `yearOf` stands for the platform's
`new Date(s).getFullYear()`. -/
def handleBookClick (books : List Book) (authors : List (String × String))
    (yearOf : String → Int) (active : Option String)
    (dv : DetailView) : DetailView :=
  match lookupById books active with
  | some book =>
    { openFlag := true
    , blurSrc := book.image
    , imageSrc := book.image
    , titleText := book.title
    , subtitleText := lookupAuthor authors book.author ++ " (" ++
        toString (yearOf book.published) ++ ")"
    , descriptionText := book.description }
  | none => dv

/-- `initialize` (scripts.js lines 188-206), restricted to the engine
state: `currentMatches` starts as the whole dataset, `page` as 1, and the
first `BOOKS_PER_PAGE` previews are appended to the empty list
container.  The show-more button and no-results message start in the
page markup's default state (enabled, hidden), which is outside
scripts.js. -/
def initApp (d : Dataset) : EngineState :=
  { currentMatches := d.books
  , page := 1
  , listItems := createBookPreviews (jsSlice d.books 0 d.BOOKS_PER_PAGE) d.authors
  , listButtonDisabled := false
  , listRemaining := 0
  , messageShown := false }

/-- The engine-relevant user events dispatched by
`setupEventListeners`: a search-form submit with parsed filters, or a
show-more click. -/
inductive Ev where
  | search (f : Filters)
  | showMore
  deriving Repr

/-- Dispatch one event to its handler. -/
def step (d : Dataset) (s : EngineState) : Ev → EngineState
  | Ev.search f => handleSearch d f s
  | Ev.showMore => handleShowMore d s

/-- Run a sequence of events from a given state. -/
def runFrom (d : Dataset) : EngineState → List Ev → EngineState
  | s, [] => s
  | s, e :: rest => runFrom d (step d s e) rest

/-- Run a sequence of events from the just-initialized state. -/
def runApp (d : Dataset) (evs : List Ev) : EngineState :=
  runFrom d (initApp d) evs

/-- The rendered-count invariant of the spec: the number of preview
elements in the list equals `min (page * BOOKS_PER_PAGE) |currentMatches|`. -/
def EngineInv (d : Dataset) (s : EngineState) : Prop :=
  s.listItems.length = min (s.page * d.BOOKS_PER_PAGE) s.currentMatches.length

/-! ## Helper lemmas -/

/-- `listContains` finds `pat` exactly when `pat` occurs contiguously
inside the list. -/
theorem listContains_iff (pat : List Char) (l : List Char) :
    listContains pat l = true ↔ ∃ pre post : List Char, l = pre ++ pat ++ post := by
  induction l with
  | nil =>
    simp only [listContains, List.isEmpty_iff]
    constructor
    · rintro rfl
      exact ⟨[], [], rfl⟩
    · rintro ⟨pre, post, h⟩
      have h' := congrArg List.length h
      simp only [List.length_nil, List.length_append] at h'
      have hp : pat.length = 0 := by omega
      exact List.length_eq_zero.mp hp
  | cons c rest ih =>
    simp only [listContains, Bool.or_eq_true, ih, List.isPrefixOf_iff_prefix]
    constructor
    · rintro (⟨t, ht⟩ | ⟨pre, post, rfl⟩)
      · exact ⟨[], t, by rw [List.nil_append]; exact ht.symm⟩
      · exact ⟨c :: pre, post, rfl⟩
    · rintro ⟨pre, post, h⟩
      match pre, h with
      | [], h =>
        exact Or.inl ⟨post, by simpa using h.symm⟩
      | p :: pre', h =>
        rw [List.cons_append, List.cons_append] at h
        injection h with h1 h2
        exact Or.inr ⟨pre', post, h2⟩

/-- The executable substring test agrees with the specification-level
containment statement. -/
theorem strIncludes_iff (s pat : String) :
    strIncludes s pat = true ↔ ContainsSpec s pat := by
  simp only [strIncludes, ContainsSpec, listContains_iff]

/-- Truncated natural subtraction, cast to the integers, is the
`max(a - e, 0)` of the specification. -/
theorem natSub_cast_max (a e : Nat) :
    ((a - e : Nat) : Int) = max ((a : Int) - (e : Int)) 0 := by
  omega

/-! ## Claim theorems -/

/-- Claim C1: for every filter criteria and every dataset, the match
set computed by the search handler equals exactly the books `b` in
`all_books` such that (genre is `"any"` or the genre is in
`b.genres`), (the title is empty after trimming or `b.title` contains
the title case-insensitively), and (author is `"any"` or `b.author`
equals the author); and this match set is a subsequence of
`all_books` in the original dataset order. -/
theorem C1_handleSearch_match_set (d : Dataset) (f : Filters) (s : EngineState) :
    (handleSearch d f s).currentMatches.Sublist d.books ∧
    (handleSearch d f s).currentMatches = d.books.filter (bookMatches f) ∧
    ∀ b : Book, bookMatches f b = true ↔
      (f.genre = "any" ∨ f.genre ∈ b.genres) ∧
      (jsTrim f.title = "" ∨ ContainsSpec (jsToLower b.title) (jsToLower f.title)) ∧
      (f.author = "any" ∨ b.author = f.author) := by
  refine ⟨List.filter_sublist d.books, rfl, ?_⟩
  intro b
  simp [bookMatches, genreMatch, titleMatch, authorMatch, strIncludes_iff,
    List.elem_iff, and_assoc]

/-- Claim C3: applying a filter resets the page cursor to 1, so the
next show-more click returns the slice of the *new* match set starting
at index `BOOKS_PER_PAGE`, independent of the previous cursor and of
the full dataset. -/
theorem C3_filter_resets_cursor (d : Dataset) (f : Filters) (s : EngineState) :
    (handleSearch d f s).page = 1 ∧
    showMoreSlice d (handleSearch d f s) =
      ((d.books.filter (bookMatches f)).drop d.BOOKS_PER_PAGE).take d.BOOKS_PER_PAGE := by
  refine ⟨rfl, ?_⟩
  have h1 : 1 * d.BOOKS_PER_PAGE = d.BOOKS_PER_PAGE := Nat.one_mul _
  have h2 : (1 + 1) * d.BOOKS_PER_PAGE - 1 * d.BOOKS_PER_PAGE = d.BOOKS_PER_PAGE := by
    omega
  have h3 : (1 + 1) * d.BOOKS_PER_PAGE - d.BOOKS_PER_PAGE = d.BOOKS_PER_PAGE := by
    omega
  simp only [showMoreSlice, handleSearch, jsSlice, h1, h2, h3]

/-- Claim C4: at cursor `c ≥ 1`, a show-more click returns exactly the
slice `[c * BOOKS_PER_PAGE, (c+1) * BOOKS_PER_PAGE)` of the current
match set, increments the cursor to `c+1`, reports
`remaining_count = max(|matches| - (c+1) * BOOKS_PER_PAGE, 0)`, and
disables the button exactly when `|matches| ≤ (c+1) * BOOKS_PER_PAGE`. -/
theorem C4_advance_page (d : Dataset) (s : EngineState) (h : 1 ≤ s.page) :
    showMoreSlice d s =
      (s.currentMatches.drop (s.page * d.BOOKS_PER_PAGE)).take d.BOOKS_PER_PAGE ∧
    (handleShowMore d s).page = s.page + 1 ∧
    ((handleShowMore d s).listRemaining : Int) =
      max ((s.currentMatches.length : Int) -
        (((s.page + 1) * d.BOOKS_PER_PAGE : Nat) : Int)) 0 ∧
    ((handleShowMore d s).listButtonDisabled = true ↔
      s.currentMatches.length ≤ (s.page + 1) * d.BOOKS_PER_PAGE) := by
  refine ⟨?_, rfl, ?_, ?_⟩
  · have h2 : (s.page + 1) * d.BOOKS_PER_PAGE - s.page * d.BOOKS_PER_PAGE =
        d.BOOKS_PER_PAGE := by
      rw [Nat.add_mul]
      omega
    simp [showMoreSlice, jsSlice, h2]
  · simp only [handleShowMore]
    exact natSub_cast_max _ _
  · simp only [handleShowMore, decide_eq_true_iff]

/-- Claim C6: after a search, the no-results message shows iff the
match set is empty, the show-more button is disabled iff
`|matches| ≤ BOOKS_PER_PAGE`, and the reported remaining count equals
`max(|matches| - BOOKS_PER_PAGE, 0)`. -/
theorem C6_apply_filter_flags (d : Dataset) (f : Filters) (s : EngineState) :
    ((handleSearch d f s).messageShown = true ↔
      (handleSearch d f s).currentMatches.length = 0) ∧
    ((handleSearch d f s).listButtonDisabled = true ↔
      (handleSearch d f s).currentMatches.length ≤ d.BOOKS_PER_PAGE) ∧
    ((handleSearch d f s).listRemaining : Int) =
      max (((handleSearch d f s).currentMatches.length : Int) -
        (d.BOOKS_PER_PAGE : Int)) 0 := by
  refine ⟨?_, ?_, ?_⟩
  · simp only [handleSearch, decide_eq_true_iff]
    omega
  · simp only [handleSearch, decide_eq_true_iff]
  · simp only [handleSearch]
    omega

/-- A concrete theme state used to exhibit the C2 bug. -/
def uEx : ThemeState :=
  { settingsThemeValue := Theme.day
  , colorDark := "10, 10, 20"
  , colorLight := "255, 255, 255"
  , settingsOverlayOpen := true }

/-- Claim C2 (code bug): the spec requires that an explicit theme
choice submitted via the settings form is applied unconditionally, but
the submit handler calls `applyTheme()`, which re-derives the theme
from the environment dark-mode signal and overwrites the submitted
choice.  The resulting theme always equals the environment-derived
one; in particular, submitting `day` under a dark-mode signal yields
`night`. -/
theorem C2_settings_submit_ignores_choice :
    (∀ (choice : Theme) (prefersDarkScheme : Bool) (u : ThemeState),
      (settingsFormSubmit choice prefersDarkScheme u).settingsThemeValue =
        (if prefersDarkScheme then Theme.night else Theme.day)) ∧
    (settingsFormSubmit Theme.day true uEx).settingsThemeValue = Theme.night ∧
    Theme.night ≠ Theme.day := by
  exact ⟨fun _ _ _ => rfl, rfl, by decide⟩

/-- The search handler establishes the rendered-count invariant
outright. -/
theorem handleSearch_inv (d : Dataset) (f : Filters) (s : EngineState) :
    EngineInv d (handleSearch d f s) := by
  simp only [EngineInv, handleSearch, createBookPreviews, jsSlice,
    List.length_map, List.length_take, List.length_drop]
  omega

/-- The show-more handler preserves the rendered-count invariant. -/
theorem handleShowMore_inv (d : Dataset) (s : EngineState)
    (h : EngineInv d s) : EngineInv d (handleShowMore d s) := by
  simp only [EngineInv, handleShowMore, showMoreSlice, createBookPreviews, jsSlice,
    List.length_append, List.length_map, List.length_take, List.length_drop] at h ⊢
  rw [h, Nat.add_mul]
  generalize s.page * d.BOOKS_PER_PAGE = A
  omega

/-- Initialization establishes the rendered-count invariant. -/
theorem initApp_inv (d : Dataset) : EngineInv d (initApp d) := by
  simp only [EngineInv, initApp, createBookPreviews, jsSlice,
    List.length_map, List.length_take, List.length_drop]
  omega

/-- Running any event sequence preserves the invariant. -/
theorem runFrom_inv (d : Dataset) (evs : List Ev) (s : EngineState)
    (h : EngineInv d s) : EngineInv d (runFrom d s evs) := by
  induction evs generalizing s with
  | nil => exact h
  | cons e rest ih =>
    cases e with
    | search f => exact ih _ (handleSearch_inv d f s)
    | showMore => exact ih _ (handleShowMore_inv d s h)

/-- Claim C5: after initialization and after every sequence of search
submits and show-more clicks, the number of rendered preview elements
equals `min (page * BOOKS_PER_PAGE) |matches|`. -/
theorem C5_rendered_count_invariant (d : Dataset) (evs : List Ev) :
    EngineInv d (runApp d evs) :=
  runFrom_inv d evs (initApp d) (initApp_inv d)

/-- Claim C7: the book-click lookup returns a record exactly when the
clicked token equals some record's id; on a miss the handler leaves
the detail view unchanged and never fails. -/
theorem C7_lookup_by_id (books : List Book) (authors : List (String × String))
    (yearOf : String → Int) (active : Option String) (dv : DetailView) :
    ((lookupById books active).isSome ↔ ∃ b, b ∈ books ∧ active = some b.id) ∧
    (lookupById books active = none →
      handleBookClick books authors yearOf active dv = dv) := by
  constructor
  · rw [lookupById, List.find?_isSome]
    constructor
    · rintro ⟨b, hb, hbeq⟩
      exact ⟨b, hb, (beq_iff_eq.mp hbeq).symm⟩
    · rintro ⟨b, hb, rfl⟩
      exact ⟨b, hb, by simp⟩
  · intro h
    simp only [handleBookClick, h]

/-- A concrete detail-view state for the C7 witness. -/
def dvEx : DetailView :=
  { openFlag := false
  , blurSrc := ""
  , imageSrc := ""
  , titleText := ""
  , subtitleText := ""
  , descriptionText := "" }

/-- Witness for C7 at a concrete input: an empty dataset and an absent
token miss, and the detail view is untouched. -/
theorem C7_lookup_by_id_witness :
    lookupById ([] : List Book) none = none ∧
    handleBookClick [] [] (fun _ => 0) none dvEx = dvEx :=
  ⟨rfl, (C7_lookup_by_id [] [] (fun _ => 0) none dvEx).2 rfl⟩

/-- A concrete dataset for witnesses: no books, page size 1. -/
def dEx : Dataset :=
  { books := [], authors := [], genres := [], BOOKS_PER_PAGE := 1 }

/-- A concrete engine state for witnesses: empty match set, cursor 1. -/
def sEx : EngineState :=
  { currentMatches := []
  , page := 1
  , listItems := []
  , listButtonDisabled := false
  , listRemaining := 0
  , messageShown := false }

/-- Witness for C4 at a concrete input with cursor 1. -/
theorem C4_advance_page_witness :
    1 ≤ sEx.page ∧ (handleShowMore dEx sEx).page = sEx.page + 1 :=
  ⟨by decide, (C4_advance_page dEx sEx (by decide)).2.1⟩

/-- Claim C8: a show-more click on an already exhausted match set
(`page * BOOKS_PER_PAGE ≥ |matches|`) does not fail: the computed
slice is empty and no new preview is appended, and the match set is
untouched.  (Every handler of the embedding is a total function, so
`handleSearch` likewise has no failure condition for any criteria.) -/
theorem C8_exhausted_advance_safe (d : Dataset) (s : EngineState)
    (h : s.currentMatches.length ≤ s.page * d.BOOKS_PER_PAGE) :
    showMoreSlice d s = [] ∧
    (handleShowMore d s).listItems = s.listItems ∧
    (handleShowMore d s).currentMatches = s.currentMatches := by
  have hs : showMoreSlice d s = [] := by
    simp [showMoreSlice, jsSlice, List.drop_eq_nil_of_le h]
  refine ⟨hs, ?_, rfl⟩
  simp [handleShowMore, showMoreSlice] at hs ⊢
  simp [hs, createBookPreviews]

/-- Witness for C8 at a concrete input: empty match set, cursor 1. -/
theorem C8_exhausted_advance_safe_witness :
    sEx.currentMatches.length ≤ sEx.page * dEx.BOOKS_PER_PAGE ∧
    showMoreSlice dEx sEx = [] :=
  ⟨by decide, (C8_exhausted_advance_safe dEx sEx (by decide)).1⟩

/-- Claim C9: the dropdown option builder emits the default `"any"`
option first with the given label, followed by exactly one option per
mapping entry, in iteration order, each carrying the entry's id as
value and its name as content. -/
theorem C9_createOptions_spec (data : List (String × String)) (label : String) :
    (createOptions data label).length = data.length + 1 ∧
    (createOptions data label).head? =
      some (createElement "option" [("value", "any")] label) ∧
    ∀ i : Nat, (createOptions data label)[i + 1]? =
      (data[i]?).map (fun p => createElement "option" [("value", p.1)] p.2) := by
  refine ⟨by simp [createOptions], rfl, ?_⟩
  intro i
  simp [createOptions]

/-- Claim C10: trimming of the title criterion affects only the
emptiness test, never the matched text: whenever the title is
non-empty after trimming, a book matches exactly when its lowercased
title contains the lowercased *untrimmed* (whitespace-padded)
criterion as a literal substring.  A concrete pair separates the two
readings: title criterion `" b"` against the book title `"ab"` does
not match, although the trimmed term `"b"` is a substring. -/
theorem C10_title_not_trimmed_for_matching :
    (∀ (f : Filters) (b : Book), jsTrim f.title ≠ "" →
      (titleMatch f b = true ↔
        ContainsSpec (jsToLower b.title) (jsToLower f.title))) ∧
    titleMatch { title := " b", genre := "any", author := "any" }
      { id := "1", title := "ab", author := "a", image := "", description := ""
      , published := "", genres := [] } = false ∧
    ContainsSpec (jsToLower "ab") (jsToLower (jsTrim " b")) := by
  refine ⟨?_, by decide, ⟨['a'], [], by decide⟩⟩
  intro f b h
  simp [titleMatch, beq_iff_eq, h, strIncludes_iff]

/-- Witness for C10 at the concrete separating input. -/
theorem C10_title_not_trimmed_for_matching_witness :
    jsTrim " b" ≠ "" ∧
    (titleMatch { title := " b", genre := "any", author := "any" }
      { id := "1", title := "ab", author := "a", image := "", description := ""
      , published := "", genres := [] } = true ↔
      ContainsSpec (jsToLower "ab") (jsToLower " b")) :=
  ⟨by decide,
    C10_title_not_trimmed_for_matching.1
      { title := " b", genre := "any", author := "any" }
      { id := "1", title := "ab", author := "a", image := "", description := ""
      , published := "", genres := [] } (by decide)⟩

end BookConnect
